import Mathlib

/-!
# KuberBank ledger core — shallow embedding and verification

This file embeds the transactional ledger core of the KuberBank repository
(`src/database/functions/001_banking_functions.sql` together with the triggers of
`src/database/migrations/001_init_schema.sql`) as pure Lean functions on an explicit
database state, and proves / refutes the frozen specification claims about it.

Modelling conventions:
* `DECIMAL(15,2)` money values are integers counted in hundredths (cents), so the
  literal `0.01` of the spec is the integer `1`.
* Each table is a list of rows; `SERIAL` / `BIGSERIAL` ids and `uuid_generate_v4()`
  reference tokens are modelled by fresh-counter fields of the state.
* A PL/pgSQL `RAISE EXCEPTION` aborts the whole stored procedure and rolls back all
  of its writes, so every operation is a function `DB → Except BankError (DB × _)`:
  an `.error` result leaves the caller with the original, unmutated state.
* The `BEFORE INSERT` trigger `validate_transaction_amount` and the `AFTER UPDATE`
  trigger `log_balance_change` from the schema migration are inlined at the points
  where the corresponding `INSERT INTO transactions` / `UPDATE accounts` statements
  occur in the stored procedures, using the table contents visible at that moment.
* `NOW()` is the `now` field of the state; `INTERVAL '1 day'` is `oneDay`.
-/

/-- One row of the `accounts` table (the columns the ledger core reads or writes). -/
structure Account where
  id : Nat
  accountNumber : String
  balance : Int
  overdraftLimit : Int
  accStatus : String
  lastTransactionAt : Option Int
  closedAt : Option Int
  deriving Repr, DecidableEq

/-- One row of the `transactions` table. -/
structure Transaction where
  id : Nat
  accountId : Nat
  txType : String
  amount : Int
  balanceBefore : Int
  balanceAfter : Int
  txStatus : String
  referenceNumber : Nat
  relatedAccountId : Option Nat
  relatedTransactionId : Option Nat
  deriving Repr, DecidableEq

/-- One row of the `account_limits` table. -/
structure LimitEntry where
  accountId : Nat
  limitType : String
  amount : Int
  period : String
  currentUsage : Int
  resetAt : Option Int
  deriving Repr, DecidableEq

/-- One row of the `audit_logs` table (balance values when the entry records one). -/
structure AuditEntry where
  accountId : Nat
  action : String
  oldBalance : Option Int
  newBalance : Option Int
  deriving Repr, DecidableEq

/-- One row of the `alerts` table. -/
structure Alert where
  accountId : Nat
  alertType : String
  severity : String
  deriving Repr, DecidableEq

/-- The database state visible to the ledger core. -/
structure DB where
  accounts : List Account
  transactions : List Transaction
  limits : List LimitEntry
  audits : List AuditEntry
  alerts : List Alert
  nextTxId : Nat
  nextRef : Nat
  now : Int
  deriving Repr, DecidableEq

/-- The business-rule error kinds raised by the stored procedures. -/
inductive BankError where
  | accountNotFound
  | invalidAmount
  | insufficientFunds
  | limitExceeded
  | selfTransfer
  | nonZeroBalance
  deriving Repr, DecidableEq

/-- The `WHERE account_number = num AND status = 'active'` row filter shared by the
account lookups of all stored procedures. -/
def activePred (num : String) (a : Account) : Bool :=
  a.accountNumber == num && a.accStatus == "active"

/-- `SELECT ... FROM accounts WHERE account_number = num AND status = 'active'`. -/
def findActive (db : DB) (num : String) : Option Account :=
  db.accounts.find? (activePred num)

/-- `UPDATE accounts SET balance = b, last_transaction_at = NOW() WHERE id = accId`. -/
def updateAccountBalance (accs : List Account) (accId : Nat) (b now : Int) :
    List Account :=
  accs.map fun a =>
    if a.id = accId then { a with balance := b, lastTransactionAt := some now } else a

/-- The `log_balance_change` trigger (`001_init_schema.sql` lines 247-275): an
`AFTER UPDATE` on `accounts` inserts a `balance_change` audit row exactly when the
balance actually changed. -/
def log_balance_change (accId : Nat) (oldB newB : Int) : List AuditEntry :=
  if oldB ≠ newB then
    [{ accountId := accId, action := "balance_change",
       oldBalance := some oldB, newBalance := some newB }]
  else []

/-- The `validate_transaction_amount` trigger (`001_init_schema.sql` lines 295-316):
a `BEFORE INSERT` on `transactions` that, for `withdrawal`/`transfer` rows, re-reads
the account's current balance and raises when `balance - amount < -overdraft_limit`.
Returns `true` when the insert is allowed. -/
def validate_transaction_amount (accs : List Account) (accId : Nat) (ty : String)
    (amount : Int) : Bool :=
  if ty == "withdrawal" || ty == "transfer" then
    match accs.find? (fun a => a.id == accId) with
    | some a => !(a.balance - amount < -a.overdraftLimit)
    | none => true
  else true

/-- The `transactions` row inserted by `process_deposit` (lines 48-56). -/
def depositTx (db : DB) (a : Account) (amount : Int) : Transaction :=
  { id := db.nextTxId, accountId := a.id, txType := "deposit", amount := amount,
    balanceBefore := a.balance, balanceAfter := a.balance + amount,
    txStatus := "completed", referenceNumber := db.nextRef,
    relatedAccountId := none, relatedTransactionId := none }

/-- The `large_transaction` alert row of `process_deposit` (lines 64-73). -/
def largeAlert (a : Account) : Alert :=
  { accountId := a.id, alertType := "large_transaction", severity := "info" }

/-- `process_deposit` (`001_banking_functions.sql` lines 11-77): look up the active
account, reject non-positive amounts, insert one completed `deposit` transaction,
update the balance and `last_transaction_at`, and raise a `large_transaction` alert
for amounts strictly above 10000 dollars (1000000 cents). Returns the new balance. -/
def process_deposit (db : DB) (num : String) (amount : Int) :
    Except BankError (DB × Int) :=
  match findActive db num with
  | none => .error .accountNotFound
  | some a =>
    if amount ≤ 0 then .error .invalidAmount
    else
      .ok ({ db with
              accounts := updateAccountBalance db.accounts a.id (a.balance + amount)
                db.now,
              transactions := db.transactions ++ [depositTx db a amount],
              audits := db.audits
                ++ log_balance_change a.id a.balance (a.balance + amount),
              alerts := db.alerts ++ (if amount > 1000000 then [largeAlert a] else []),
              nextTxId := db.nextTxId + 1,
              nextRef := db.nextRef + 1 }, a.balance + amount)

/-- `NOW() + INTERVAL '1 day'` advances the clock by this many seconds. -/
def oneDay : Int := 86400

/-- The limit lookup of `process_withdrawal` (lines 124-128): the first
`daily_withdrawal` row of the account whose `reset_at` is `NULL` or in the future. -/
def findDailyLimit (db : DB) (accId : Nat) : Option LimitEntry :=
  db.limits.find? fun l =>
    l.accountId == accId && l.limitType == "daily_withdrawal" &&
      (match l.resetAt with
       | none => true
       | some t => decide (db.now < t))

/-- The usage update of `process_withdrawal` (lines 155-158). Note that, unlike the
limit check, this `UPDATE` has no `reset_at` filter: it increments every
`daily_withdrawal` row of the account, expired or not. -/
def incDailyUsage (limits : List LimitEntry) (accId : Nat) (amount : Int) :
    List LimitEntry :=
  limits.map fun l =>
    if l.accountId = accId ∧ l.limitType = "daily_withdrawal" then
      { l with currentUsage := l.currentUsage + amount }
    else l

/-- The `transactions` row inserted by `process_withdrawal` (lines 139-147). -/
def withdrawTx (db : DB) (a : Account) (amount : Int) : Transaction :=
  { id := db.nextTxId, accountId := a.id, txType := "withdrawal", amount := amount,
    balanceBefore := a.balance, balanceAfter := a.balance - amount,
    txStatus := "completed", referenceNumber := db.nextRef,
    relatedAccountId := none, relatedTransactionId := none }

/-- The `low_balance` alert row of `process_withdrawal` (lines 160-169). -/
def lowBalanceAlert (a : Account) : Alert :=
  { accountId := a.id, alertType := "low_balance", severity := "warning" }

/-- The commit phase of `process_withdrawal` (lines 135-171), entered after all
explicit checks passed: insert the completed `withdrawal` transaction (firing the
`validate_transaction_amount` trigger), update the balance, increment the daily
usage, and raise a `low_balance` alert when the new balance is strictly below
100 dollars (10000 cents). -/
def processWithdrawalCommit (db : DB) (a : Account) (amount : Int) :
    Except BankError (DB × Int) :=
  if validate_transaction_amount db.accounts a.id "withdrawal" amount = false then
    .error .insufficientFunds
  else
    .ok ({ db with
            accounts := updateAccountBalance db.accounts a.id (a.balance - amount)
              db.now,
            transactions := db.transactions ++ [withdrawTx db a amount],
            limits := incDailyUsage db.limits a.id amount,
            audits := db.audits
              ++ log_balance_change a.id a.balance (a.balance - amount),
            alerts := db.alerts ++
              (if a.balance - amount < 10000 then [lowBalanceAlert a] else []),
            nextTxId := db.nextTxId + 1,
            nextRef := db.nextRef + 1 }, a.balance - amount)

/-- `process_withdrawal` (`001_banking_functions.sql` lines 80-173): the checks in
source order — active account, positive amount, overdraft-aware funds check, then
the non-expired daily limit check — followed by the commit phase. -/
def process_withdrawal (db : DB) (num : String) (amount : Int) :
    Except BankError (DB × Int) :=
  match findActive db num with
  | none => .error .accountNotFound
  | some a =>
    if amount ≤ 0 then .error .invalidAmount
    else if a.balance - amount < -a.overdraftLimit then .error .insufficientFunds
    else
      match findDailyLimit db a.id with
      | some l =>
        if l.currentUsage + amount > l.amount then .error .limitExceeded
        else processWithdrawalCommit db a amount
      | none => processWithdrawalCommit db a amount

/-- The row-lock acquisition sequence of `process_transfer` (lines 212-221): the
source issues `SELECT ... FOR UPDATE` on the `from` account first (lines 213-216)
and on the `to` account second (lines 218-221), i.e. always in caller order. -/
def transferLockOrder (pFrom pTo : String) : List String := [pFrom, pTo]

/-- The withdrawal leg inserted by `process_transfer` (lines 244-256): it carries
the shared reference token and `related_account_id = to`, but — unlike the deposit
leg — no `related_transaction_id`. -/
def transferWithdrawTx (db : DB) (fa ta : Account) (amount : Int) : Transaction :=
  { id := db.nextTxId, accountId := fa.id, txType := "withdrawal", amount := amount,
    balanceBefore := fa.balance, balanceAfter := fa.balance - amount,
    txStatus := "completed", referenceNumber := db.nextRef,
    relatedAccountId := some ta.id, relatedTransactionId := none }

/-- The deposit leg inserted by `process_transfer` (lines 258-270): shared
reference token, `related_account_id = from`, `related_transaction_id` pointing at
the withdrawal leg. -/
def transferDepositTx (db : DB) (fa ta : Account) (amount : Int) : Transaction :=
  { id := db.nextTxId + 1, accountId := ta.id, txType := "deposit", amount := amount,
    balanceBefore := ta.balance, balanceAfter := ta.balance + amount,
    txStatus := "completed", referenceNumber := db.nextRef,
    relatedAccountId := some fa.id, relatedTransactionId := some db.nextTxId }

/-- The `transfer_received` alert row of `process_transfer` (lines 284-291). -/
def receivedAlert (ta : Account) : Alert :=
  { accountId := ta.id, alertType := "transfer_received", severity := "info" }

/-- `process_transfer` (`001_banking_functions.sql` lines 176-296): reject
self-transfer and non-positive amounts, look up both active accounts (locking in
the order of `transferLockOrder`), check `from_balance < amount` (line 232 — the
explicit check does not consult the overdraft limit), then insert the withdrawal
leg on `from` (firing the `validate_transaction_amount` trigger against the not yet
updated balances) and the deposit leg on `to`, sharing one fresh reference token;
only the deposit leg carries `related_transaction_id` (lines 245-270). Finally both
balances are updated and a `transfer_received` alert is raised for the destination.
Returns both new balances. -/
def process_transfer (db : DB) (fromN toN : String) (amount : Int) :
    Except BankError (DB × Int × Int) :=
  if fromN = toN then .error .selfTransfer
  else if amount ≤ 0 then .error .invalidAmount
  else
    match findActive db fromN with
    | none => .error .accountNotFound
    | some fa =>
      match findActive db toN with
      | none => .error .accountNotFound
      | some ta =>
        if fa.balance < amount then .error .insufficientFunds
        else if validate_transaction_amount db.accounts fa.id "withdrawal" amount
            = false then
          .error .insufficientFunds
        else
          .ok ({ db with
                  accounts := updateAccountBalance
                    (updateAccountBalance db.accounts fa.id (fa.balance - amount)
                      db.now)
                    ta.id (ta.balance + amount) db.now,
                  transactions := db.transactions
                    ++ [transferWithdrawTx db fa ta amount,
                        transferDepositTx db fa ta amount],
                  audits := db.audits
                    ++ log_balance_change fa.id fa.balance (fa.balance - amount)
                    ++ log_balance_change ta.id ta.balance (ta.balance + amount),
                  alerts := db.alerts ++ [receivedAlert ta],
                  nextTxId := db.nextTxId + 2,
                  nextRef := db.nextRef + 1 }, fa.balance - amount,
             ta.balance + amount)

/-- `close_account` (`001_banking_functions.sql` lines 371-413): look up the active
account, reject a non-zero balance, set the status to `closed` with the closing
timestamp, and write an `account_closed` audit entry. Returns `TRUE`. -/
def close_account (db : DB) (num : String) : Except BankError (DB × Bool) :=
  match findActive db num with
  | none => .error .accountNotFound
  | some a =>
    if a.balance ≠ 0 then .error .nonZeroBalance
    else
      .ok ({ db with
              accounts := db.accounts.map fun x =>
                if x.id = a.id then
                  { x with accStatus := "closed", closedAt := some db.now }
                else x,
              audits := db.audits ++
                [{ accountId := a.id, action := "account_closed",
                   oldBalance := none, newBalance := none }] }, true)

/-- The `WHERE` clause of `reset_daily_limits` (lines 501-505): `period = 'daily'
AND (reset_at IS NULL OR reset_at <= NOW())`. -/
def resetHits (now : Int) (l : LimitEntry) : Bool :=
  l.period == "daily" &&
    (match l.resetAt with
     | none => true
     | some t => decide (t ≤ now))

/-- `reset_daily_limits` (`001_banking_functions.sql` lines 496-510): zero
`current_usage` and advance `reset_at` by one day for every row matching
`resetHits`, and return the number of rows updated (`GET DIAGNOSTICS ROW_COUNT`). -/
def reset_daily_limits (db : DB) : DB × Nat :=
  ({ db with
      limits := db.limits.map fun l =>
        if resetHits db.now l then
          { l with currentUsage := 0, resetAt := some (db.now + oneDay) }
        else l },
   (db.limits.filter (resetHits db.now)).length)

/-- Sum of all account balances — the conserved quantity of the spec's
`Conservation` property. -/
def sumBalances (db : DB) : Int := (db.accounts.map Account.balance).sum

/-- Well-formedness corresponding to the `accounts.id` primary-key constraint:
no two account rows share an id. -/
def WF (db : DB) : Prop := (db.accounts.map Account.id).Nodup

instance (db : DB) : Decidable (WF db) := by unfold WF; infer_instance

/-- The three balance-affecting ledger operations, as issued by a caller. -/
inductive Op where
  | deposit (num : String) (amount : Int)
  | withdraw (num : String) (amount : Int)
  | transfer (fromN toN : String) (amount : Int)
  deriving Repr, DecidableEq

/-- Run one operation, keeping only the resulting state. -/
def applyOp (db : DB) : Op → Except BankError DB
  | .deposit n a => (process_deposit db n a).map Prod.fst
  | .withdraw n a => (process_withdrawal db n a).map Prod.fst
  | .transfer f t a => (process_transfer db f t a).map Prod.fst

/-- Run a sequence of operations; the run succeeds only when every single
operation succeeds (a failing operation aborts with no effect of its own). -/
def runOps (db : DB) : List Op → Except BankError DB
  | [] => .ok db
  | op :: rest =>
    match applyOp db op with
    | .error e => .error e
    | .ok db1 => runOps db1 rest

/-- The contribution of one operation to the total of all balances: deposited
amounts count positively, withdrawn amounts negatively, transfers not at all. -/
def opDelta : Op → Int
  | .deposit _ a => a
  | .withdraw _ a => -a
  | .transfer _ _ _ => 0

/-- Net of deposits minus withdrawals over a sequence of operations. -/
def netFlow (ops : List Op) : Int := (ops.map opDelta).sum

/-! ## Helper lemmas about the embedded table operations -/

lemma updateAccountBalance_map_id (accs : List Account) (i : Nat) (b now : Int) :
    (updateAccountBalance accs i b now).map Account.id = accs.map Account.id := by
  unfold updateAccountBalance
  rw [List.map_map]
  apply List.map_congr_left
  intro a _
  by_cases h : a.id = i <;> simp [h]

lemma updateAccountBalance_not_mem (accs : List Account) (i : Nat) (b now : Int)
    (h : i ∉ accs.map Account.id) :
    updateAccountBalance accs i b now = accs := by
  induction accs with
  | nil => rfl
  | cons x t ih =>
    rw [List.map_cons, List.mem_cons] at h
    push_neg at h
    unfold updateAccountBalance at *
    simp only [List.map_cons, List.cons.injEq]
    constructor
    · rw [if_neg (fun hx => h.1 hx.symm)]
    · exact ih h.2

lemma sumBalances_cons (x : Account) (t : List Account) :
    ((x :: t).map Account.balance).sum = x.balance + (t.map Account.balance).sum := by
  simp

lemma sumBal_update (accs : List Account) (a : Account) (b now : Int)
    (hnd : (accs.map Account.id).Nodup) (ha : a ∈ accs) :
    ((updateAccountBalance accs a.id b now).map Account.balance).sum
      = (accs.map Account.balance).sum - a.balance + b := by
  induction accs with
  | nil => cases ha
  | cons x t ih =>
    rw [List.map_cons, List.nodup_cons] at hnd
    obtain ⟨hx, hnd'⟩ := hnd
    by_cases hid : x.id = a.id
    · have hax : a = x := by
        rcases List.mem_cons.mp ha with h | h
        · exact h
        · exact absurd (hid ▸ List.mem_map_of_mem Account.id h) hx
      have ht : updateAccountBalance t a.id b now = t :=
        updateAccountBalance_not_mem t a.id b now (hid ▸ hx)
      unfold updateAccountBalance at ht ⊢
      simp only [List.map_cons, if_pos hid]
      rw [ht]
      subst hax
      simp
      ring
    · have hat : a ∈ t := by
        rcases List.mem_cons.mp ha with h | h
        · exact absurd (h ▸ rfl) hid
        · exact h
      unfold updateAccountBalance at ih ⊢
      simp only [List.map_cons, if_neg hid]
      rw [List.sum_cons, List.sum_cons, ih hnd' hat]
      ring


lemma find?_id_eq_of_nodup (accs : List Account) (a : Account)
    (hnd : (accs.map Account.id).Nodup) (ha : a ∈ accs) :
    accs.find? (fun x => x.id == a.id) = some a := by
  induction accs with
  | nil => cases ha
  | cons x t ih =>
    rw [List.map_cons, List.nodup_cons] at hnd
    obtain ⟨hx, hnd'⟩ := hnd
    rcases List.mem_cons.mp ha with h | h
    · subst h
      rw [List.find?_cons_of_pos]
      simp
    · have hne : x.id ≠ a.id := fun he => hx (he ▸ List.mem_map_of_mem Account.id h)
      rw [List.find?_cons_of_neg _ (by simp [hne])]
      exact ih hnd' h

lemma findActive_eq_some {db : DB} {num : String} {a : Account}
    (h : findActive db num = some a) :
    a ∈ db.accounts ∧ a.accountNumber = num ∧ a.accStatus = "active" := by
  unfold findActive at h
  have hp := List.find?_some h
  unfold activePred at hp
  simp only [Bool.and_eq_true, beq_iff_eq] at hp
  exact ⟨List.mem_of_find?_eq_some h, hp.1, hp.2⟩

lemma find?_map_pred (f : Account → Account) (p : Account → Bool)
    (l : List Account) (hp : ∀ a, p (f a) = p a) :
    (l.map f).find? p = (l.find? p).map f := by
  induction l with
  | nil => rfl
  | cons x t ih =>
    by_cases hx : p x
    · rw [List.map_cons, List.find?_cons_of_pos _ (by rw [hp]; exact hx),
        List.find?_cons_of_pos _ hx]
      rfl
    · rw [List.map_cons, List.find?_cons_of_neg _ (by rw [hp]; simpa using hx),
        List.find?_cons_of_neg _ (by simpa using hx), ih]

lemma process_deposit_ok {db : DB} {num : String} {amount : Int} {db' : DB} {r : Int}
    (h : process_deposit db num amount = .ok (db', r)) :
    ∃ a, findActive db num = some a ∧ 0 < amount ∧ r = a.balance + amount ∧
      db' = { db with
              accounts := updateAccountBalance db.accounts a.id (a.balance + amount)
                db.now,
              transactions := db.transactions ++ [depositTx db a amount],
              audits := db.audits
                ++ log_balance_change a.id a.balance (a.balance + amount),
              alerts := db.alerts ++ (if amount > 1000000 then [largeAlert a] else []),
              nextTxId := db.nextTxId + 1,
              nextRef := db.nextRef + 1 } := by
  unfold process_deposit at h
  split at h
  · exact absurd h (by simp)
  · next a hfa =>
    split at h
    · exact absurd h (by simp)
    · next hamt =>
      simp only [Except.ok.injEq, Prod.mk.injEq] at h
      exact ⟨a, hfa, by omega, h.2.symm, h.1.symm⟩

lemma processWithdrawalCommit_ok {db : DB} {a : Account} {amount : Int} {db' : DB}
    {r : Int} (h : processWithdrawalCommit db a amount = .ok (db', r)) :
    validate_transaction_amount db.accounts a.id "withdrawal" amount = true ∧
    r = a.balance - amount ∧
    db' = { db with
            accounts := updateAccountBalance db.accounts a.id (a.balance - amount)
              db.now,
            transactions := db.transactions ++ [withdrawTx db a amount],
            limits := incDailyUsage db.limits a.id amount,
            audits := db.audits
              ++ log_balance_change a.id a.balance (a.balance - amount),
            alerts := db.alerts ++
              (if a.balance - amount < 10000 then [lowBalanceAlert a] else []),
            nextTxId := db.nextTxId + 1,
            nextRef := db.nextRef + 1 } := by
  unfold processWithdrawalCommit at h
  by_cases hv : validate_transaction_amount db.accounts a.id "withdrawal" amount
    = false
  · rw [if_pos hv] at h; simp at h
  · rw [if_neg hv] at h
    simp only [Except.ok.injEq, Prod.mk.injEq] at h
    exact ⟨by simpa using hv, h.2.symm, h.1.symm⟩

lemma process_withdrawal_ok {db : DB} {num : String} {amount : Int} {db' : DB}
    {r : Int} (h : process_withdrawal db num amount = .ok (db', r)) :
    ∃ a, findActive db num = some a ∧ 0 < amount ∧
      ¬(a.balance - amount < -a.overdraftLimit) ∧
      (∀ l, findDailyLimit db a.id = some l → l.currentUsage + amount ≤ l.amount) ∧
      processWithdrawalCommit db a amount = .ok (db', r) := by
  unfold process_withdrawal at h
  split at h
  · exact absurd h (by simp)
  · next a hfa =>
    split at h
    · exact absurd h (by simp)
    · next hamt =>
      split at h
      · exact absurd h (by simp)
      · next hbal =>
        split at h
        · next l hl =>
          split at h
          · exact absurd h (by simp)
          · next hover =>
            refine ⟨a, hfa, by omega, hbal, ?_, h⟩
            intro l' hl'
            rw [hl] at hl'
            cases hl'
            omega
        · next hl =>
          exact ⟨a, hfa, by omega, hbal,
            (by intro l hl'; rw [hl] at hl'; cases hl'), h⟩

lemma process_transfer_ok {db : DB} {fromN toN : String} {amount : Int} {db' : DB}
    {r1 r2 : Int} (h : process_transfer db fromN toN amount = .ok (db', r1, r2)) :
    fromN ≠ toN ∧ 0 < amount ∧
    ∃ fa ta, findActive db fromN = some fa ∧ findActive db toN = some ta ∧
      amount ≤ fa.balance ∧
      validate_transaction_amount db.accounts fa.id "withdrawal" amount = true ∧
      r1 = fa.balance - amount ∧ r2 = ta.balance + amount ∧
      db' = { db with
              accounts := updateAccountBalance
                (updateAccountBalance db.accounts fa.id (fa.balance - amount) db.now)
                ta.id (ta.balance + amount) db.now,
              transactions := db.transactions
                ++ [transferWithdrawTx db fa ta amount,
                    transferDepositTx db fa ta amount],
              audits := db.audits
                ++ log_balance_change fa.id fa.balance (fa.balance - amount)
                ++ log_balance_change ta.id ta.balance (ta.balance + amount),
              alerts := db.alerts ++ [receivedAlert ta],
              nextTxId := db.nextTxId + 2,
              nextRef := db.nextRef + 1 } := by
  unfold process_transfer at h
  split at h
  · exact absurd h (by simp)
  · next hself =>
    split at h
    · exact absurd h (by simp)
    · next hamt =>
      split at h
      · exact absurd h (by simp)
      · next fa hfa =>
        split at h
        · exact absurd h (by simp)
        · next ta hta =>
          split at h
          · exact absurd h (by simp)
          · next hbal =>
            split at h
            · exact absurd h (by simp)
            · next hv =>
              simp only [Except.ok.injEq, Prod.mk.injEq] at h
              exact ⟨hself, by omega, fa, ta, hfa, hta, by omega,
                by simpa using hv, h.2.1.symm, h.2.2.symm, h.1.symm⟩

lemma applyOp_ok_conserves {db : DB} {op : Op} {db' : DB} (hwf : WF db)
    (h : applyOp db op = .ok db') :
    db'.accounts.map Account.id = db.accounts.map Account.id ∧
    sumBalances db' = sumBalances db + opDelta op := by
  cases op with
  | deposit n amt =>
    simp only [applyOp] at h
    cases hpd : process_deposit db n amt with
    | error e => rw [hpd] at h; simp [Except.map] at h
    | ok p =>
      obtain ⟨st, r⟩ := p
      rw [hpd] at h
      simp only [Except.map, Except.ok.injEq] at h
      subst h
      obtain ⟨a, hfa, hpos, hr, hdb⟩ := process_deposit_ok hpd
      subst hdb
      refine ⟨updateAccountBalance_map_id _ _ _ _, ?_⟩
      have hmem := (findActive_eq_some hfa).1
      have := sumBal_update db.accounts a (a.balance + amt) db.now hwf hmem
      simp only [sumBalances, opDelta]
      rw [this]
      ring
  | withdraw n amt =>
    simp only [applyOp] at h
    cases hpd : process_withdrawal db n amt with
    | error e => rw [hpd] at h; simp [Except.map] at h
    | ok p =>
      obtain ⟨st, r⟩ := p
      rw [hpd] at h
      simp only [Except.map, Except.ok.injEq] at h
      subst h
      obtain ⟨a, hfa, hpos, hbal, hlim, hcommit⟩ := process_withdrawal_ok hpd
      obtain ⟨hv, hr, hdb⟩ := processWithdrawalCommit_ok hcommit
      subst hdb
      refine ⟨updateAccountBalance_map_id _ _ _ _, ?_⟩
      have hmem := (findActive_eq_some hfa).1
      have := sumBal_update db.accounts a (a.balance - amt) db.now hwf hmem
      simp only [sumBalances, opDelta]
      rw [this]
      ring
  | transfer fromN toN amt =>
    simp only [applyOp] at h
    cases hpd : process_transfer db fromN toN amt with
    | error e => rw [hpd] at h; simp [Except.map] at h
    | ok p =>
      obtain ⟨st, r1, r2⟩ := p
      rw [hpd] at h
      simp only [Except.map, Except.ok.injEq] at h
      subst h
      obtain ⟨hself, hpos, fa, ta, hfa, hta, hbal, hv, hr1, hr2, hdb⟩ :=
        process_transfer_ok hpd
      subst hdb
      constructor
      · rw [updateAccountBalance_map_id, updateAccountBalance_map_id]
      · obtain ⟨hfmem, hfnum, _⟩ := findActive_eq_some hfa
        obtain ⟨htmem, htnum, _⟩ := findActive_eq_some hta
        have hfata : fa ≠ ta := by
          intro he
          exact hself (hfnum ▸ htnum ▸ congrArg Account.accountNumber he)
        have hne : fa.id ≠ ta.id := fun he =>
          hfata (List.inj_on_of_nodup_map hwf hfmem htmem he)
        have h1 := sumBal_update db.accounts fa (fa.balance - amt) db.now hwf hfmem
        have hta_mem' :
            ta ∈ updateAccountBalance db.accounts fa.id (fa.balance - amt) db.now := by
          unfold updateAccountBalance
          rw [List.mem_map]
          exact ⟨ta, htmem, by rw [if_neg (fun he : ta.id = fa.id => hne he.symm)]⟩
        have hnd1 : ((updateAccountBalance db.accounts fa.id (fa.balance - amt)
            db.now).map Account.id).Nodup := by
          rw [updateAccountBalance_map_id]; exact hwf
        have h2 := sumBal_update
          (updateAccountBalance db.accounts fa.id (fa.balance - amt) db.now)
          ta (ta.balance + amt) db.now hnd1 hta_mem'
        simp only [sumBalances, opDelta]
        rw [h2, h1]
        ring

lemma runOps_conserves {ops : List Op} {db db' : DB} (hwf : WF db)
    (h : runOps db ops = .ok db') :
    sumBalances db' = sumBalances db + netFlow ops := by
  induction ops generalizing db with
  | nil =>
    simp only [runOps, Except.ok.injEq] at h
    subst h
    simp [netFlow]
  | cons op rest ih =>
    simp only [runOps] at h
    cases hap : applyOp db op with
    | error e => rw [hap] at h; simp at h
    | ok db1 =>
      rw [hap] at h
      obtain ⟨hids, hsum⟩ := applyOp_ok_conserves hwf hap
      have hwf1 : WF db1 := by unfold WF; rw [hids]; exact hwf
      have hrest := ih hwf1 h
      simp only [netFlow, List.map_cons, List.sum_cons] at *
      omega

/-- Boolean success test for `Except` results. -/
def exceptOk {ε α : Type _} : Except ε α → Bool
  | .ok _ => true
  | .error _ => false

instance {ε α : Type _} [DecidableEq ε] [DecidableEq α] :
    DecidableEq (Except ε α) := fun x y =>
  match x, y with
  | .ok a, .ok b =>
    if h : a = b then .isTrue (by rw [h])
    else .isFalse (by intro he; cases he; exact h rfl)
  | .error a, .error b =>
    if h : a = b then .isTrue (by rw [h])
    else .isFalse (by intro he; cases he; exact h rfl)
  | .ok _, .error _ => .isFalse (by intro he; cases he)
  | .error _, .ok _ => .isFalse (by intro he; cases he)

/-! ## Concrete fixtures used by the claim witnesses and counterexamples -/

def acctA : Account :=
  { id := 1, accountNumber := "KB1000000001", balance := 100000,
    overdraftLimit := 0, accStatus := "active",
    lastTransactionAt := none, closedAt := none }

def acctB : Account :=
  { id := 2, accountNumber := "KB1000000002", balance := 50000,
    overdraftLimit := 0, accStatus := "active",
    lastTransactionAt := none, closedAt := none }

def dbC1 : DB :=
  { accounts := [acctA, acctB], transactions := [], limits := [], audits := [],
    alerts := [], nextTxId := 1, nextRef := 1, now := 0 }

def opsC1 : List Op :=
  [.deposit "KB1000000001" 5000, .withdraw "KB1000000001" 2000,
   .transfer "KB1000000001" "KB1000000002" 3000]

def dbC1run : DB := ((runOps dbC1 opsC1).toOption).getD dbC1

/-- **C1**: for every sequence of successful Deposit/Withdraw/Transfer operations on
a closed set of accounts (all accounts of the state, whose ids satisfy the primary
key constraint `WF`), the sum of all balances changes exactly by total deposits
minus total withdrawals (`netFlow`), and every successful Transfer on such a state
leaves the sum of all balances unchanged. -/
theorem C1_conservation (db db' : DB) (ops : List Op) (hwf : WF db)
    (h : runOps db ops = Except.ok db') :
    sumBalances db' = sumBalances db + netFlow ops ∧
    ∀ (fromN toN : String) (amount : Int) (db2 : DB) (r1 r2 : Int),
      process_transfer db fromN toN amount = Except.ok (db2, r1, r2) →
      sumBalances db2 = sumBalances db := by
  refine ⟨runOps_conserves hwf h, ?_⟩
  intro fromN toN amount db2 r1 r2 ht
  have hap : applyOp db (Op.transfer fromN toN amount) = Except.ok db2 := by
    simp [applyOp, ht, Except.map]
  have h2 := (applyOp_ok_conserves hwf hap).2
  simpa [opDelta] using h2

/-- Witness for C1 at a concrete two-account state and a concrete
deposit/withdraw/transfer sequence. -/
theorem C1_conservation_witness :
    WF dbC1 ∧ runOps dbC1 opsC1 = Except.ok dbC1run ∧
    sumBalances dbC1run = sumBalances dbC1 + netFlow opsC1 :=
  ⟨by decide, by rfl,
    (C1_conservation dbC1 dbC1run opsC1 (by decide) (by rfl)).1⟩

def acctOver : Account :=
  { id := 1, accountNumber := "KB2000000001", balance := 5000,
    overdraftLimit := 20000, accStatus := "active",
    lastTransactionAt := none, closedAt := none }

def acctDest : Account :=
  { id := 2, accountNumber := "KB2000000002", balance := 0,
    overdraftLimit := 0, accStatus := "active",
    lastTransactionAt := none, closedAt := none }

def dbC2 : DB :=
  { accounts := [acctOver, acctDest], transactions := [], limits := [], audits := [],
    alerts := [], nextTxId := 1, nextRef := 1, now := 0 }

/-- **C2** (counterexample): both accounts exist and are active, the amount 100.00
is positive, and `from_balance - amount = -50.00 ≥ -overdraft_limit = -200.00`, so
per the claim the transfer should succeed; the code nevertheless fails with
`InsufficientFunds`, because the explicit check at line 232 is
`from_balance < amount` and ignores the overdraft allowance. -/
theorem C2_counterexample :
    findActive dbC2 "KB2000000001" = some acctOver ∧
    findActive dbC2 "KB2000000002" = some acctDest ∧
    ("KB2000000001" : String) ≠ "KB2000000002" ∧ (0 : Int) < 10000 ∧
    -acctOver.overdraftLimit ≤ acctOver.balance - 10000 ∧
    process_transfer dbC2 "KB2000000001" "KB2000000002" 10000
      = Except.error BankError.insufficientFunds := by decide

/-- **C2** (amended): for a Transfer with `from ≠ to`, both accounts active and
`amount > 0`, the operation fails with `InsufficientFunds` exactly when
`from_balance < amount` — the explicit check of line 232 — or when the
`validate_transaction_amount` insert trigger fires,
`from_balance - amount < -from_overdraft_limit` (only possible for a negative
overdraft limit); it succeeds exactly when `amount ≤ from_balance` and the trigger
condition fails. The overdraft allowance is never usable by transfers. -/
theorem C2_transfer_funds_check (db : DB) (fromN toN : String) (amount : Int)
    (fa ta : Account) (hwf : WF db)
    (hfa : findActive db fromN = some fa) (hta : findActive db toN = some ta)
    (hne : fromN ≠ toN) (hpos : 0 < amount) :
    (process_transfer db fromN toN amount = Except.error BankError.insufficientFunds
      ↔ (fa.balance < amount ∨ fa.balance - amount < -fa.overdraftLimit)) ∧
    (exceptOk (process_transfer db fromN toN amount) = true
      ↔ (amount ≤ fa.balance ∧ -fa.overdraftLimit ≤ fa.balance - amount)) := by
  have hfmem := (findActive_eq_some hfa).1
  have hid : db.accounts.find? (fun x => x.id == fa.id) = some fa :=
    find?_id_eq_of_nodup db.accounts fa hwf hfmem
  have hval : validate_transaction_amount db.accounts fa.id "withdrawal" amount
      = !(decide (fa.balance - amount < -fa.overdraftLimit)) := by
    simp [validate_transaction_amount, hid]
  have hfail : fa.balance < amount ∨ fa.balance - amount < -fa.overdraftLimit →
      process_transfer db fromN toN amount
        = Except.error BankError.insufficientFunds := by
    intro hc
    unfold process_transfer
    rw [if_neg hne, if_neg (by omega : ¬amount ≤ 0)]
    simp only [hfa, hta]
    by_cases h1 : fa.balance < amount
    · rw [if_pos h1]
    · rw [if_neg h1, hval]
      have h2 : fa.balance - amount < -fa.overdraftLimit := by tauto
      simp [h2]
  have hok : ¬(fa.balance < amount ∨ fa.balance - amount < -fa.overdraftLimit) →
      exceptOk (process_transfer db fromN toN amount) = true := by
    intro hc
    push_neg at hc
    unfold process_transfer
    rw [if_neg hne, if_neg (by omega : ¬amount ≤ 0)]
    simp only [hfa, hta]
    rw [if_neg (by omega : ¬fa.balance < amount), hval]
    have h2 : ¬(fa.balance - amount < -fa.overdraftLimit) := by omega
    simp [h2, exceptOk]
  constructor
  · constructor
    · intro herr
      by_contra hc
      have := hok hc
      rw [herr] at this
      simp [exceptOk] at this
    · exact hfail
  · constructor
    · intro hisok
      by_cases h1 : fa.balance < amount
      · rw [hfail (Or.inl h1)] at hisok; simp [exceptOk] at hisok
      · by_cases h2 : fa.balance - amount < -fa.overdraftLimit
        · rw [hfail (Or.inr h2)] at hisok; simp [exceptOk] at hisok
        · omega
    · intro hand
      exact hok (by omega)

/-- Witness for the amended C2 at the concrete overdraft state: with balance 50.00
and overdraft 200.00, a 10.00 transfer succeeds (funds check `amount ≤ balance`),
and the failure characterization holds. -/
theorem C2_transfer_funds_check_witness :
    (process_transfer dbC2 "KB2000000001" "KB2000000002" 1000
        = Except.error BankError.insufficientFunds
      ↔ (acctOver.balance < 1000 ∨
         acctOver.balance - 1000 < -acctOver.overdraftLimit)) ∧
    (exceptOk (process_transfer dbC2 "KB2000000001" "KB2000000002" 1000) = true
      ↔ (1000 ≤ acctOver.balance ∧
         -acctOver.overdraftLimit ≤ acctOver.balance - 1000)) :=
  C2_transfer_funds_check dbC2 "KB2000000001" "KB2000000002" 1000 acctOver acctDest
    (by decide) (by decide) (by decide) (by decide) (by decide)

def dbC3 : DB :=
  { accounts := [acctA, acctB], transactions := [], limits := [], audits := [],
    alerts := [], nextTxId := 10, nextRef := 77, now := 0 }

def dbC3run : DB :=
  ((process_transfer dbC3 "KB1000000001" "KB1000000002" 100).toOption.map
    Prod.fst).getD dbC3

/-- **C3** (counterexample): a successful transfer on an empty log produces exactly
the two legs, but the withdrawal leg's related-transaction field is `none` rather
than naming the deposit leg (only the deposit leg points back, at id 10), so the
claim that "each leg's related-transaction field names the other leg" is false. -/
theorem C3_counterexample :
    exceptOk (process_transfer dbC3 "KB1000000001" "KB1000000002" 100) = true ∧
    ((process_transfer dbC3 "KB1000000001" "KB1000000002" 100).toOption.map
      (fun p => p.1.transactions.map Transaction.relatedTransactionId))
      = some [none, some 10] := by decide

/-- **C3** (amended): every successful Transfer appends exactly two Transaction
rows — a withdrawal leg on the source and a deposit leg on the destination —
sharing a single reference token, each leg's related-account field naming the
opposite account; the deposit leg's related-transaction field names the withdrawal
leg, but the withdrawal leg's related-transaction field is left `NULL` (the
cross-reference is one-directional). -/
theorem C3_transfer_legs (db : DB) (fromN toN : String) (amount : Int) (db' : DB)
    (r1 r2 : Int) (fa ta : Account)
    (hfa : findActive db fromN = some fa) (hta : findActive db toN = some ta)
    (h : process_transfer db fromN toN amount = Except.ok (db', r1, r2)) :
    db'.transactions = db.transactions
      ++ [transferWithdrawTx db fa ta amount, transferDepositTx db fa ta amount] ∧
    (transferWithdrawTx db fa ta amount).txType = "withdrawal" ∧
    (transferWithdrawTx db fa ta amount).accountId = fa.id ∧
    (transferDepositTx db fa ta amount).txType = "deposit" ∧
    (transferDepositTx db fa ta amount).accountId = ta.id ∧
    (transferWithdrawTx db fa ta amount).referenceNumber
      = (transferDepositTx db fa ta amount).referenceNumber ∧
    (transferWithdrawTx db fa ta amount).relatedAccountId = some ta.id ∧
    (transferDepositTx db fa ta amount).relatedAccountId = some fa.id ∧
    (transferDepositTx db fa ta amount).relatedTransactionId
      = some (transferWithdrawTx db fa ta amount).id ∧
    (transferWithdrawTx db fa ta amount).relatedTransactionId = none := by
  obtain ⟨hself, hpos, fa', ta', hfa', hta', hbal, hv, hr1, hr2, hdb⟩ :=
    process_transfer_ok h
  rw [hfa] at hfa'
  rw [hta] at hta'
  cases hfa'
  cases hta'
  subst hdb
  exact ⟨rfl, rfl, rfl, rfl, rfl, rfl, rfl, rfl, rfl, rfl⟩

/-- Witness for the amended C3 at a concrete transfer. -/
theorem C3_transfer_legs_witness :
    dbC3run.transactions = dbC3.transactions
      ++ [transferWithdrawTx dbC3 acctA acctB 100,
          transferDepositTx dbC3 acctA acctB 100] ∧
    (transferWithdrawTx dbC3 acctA acctB 100).txType = "withdrawal" ∧
    (transferWithdrawTx dbC3 acctA acctB 100).accountId = acctA.id ∧
    (transferDepositTx dbC3 acctA acctB 100).txType = "deposit" ∧
    (transferDepositTx dbC3 acctA acctB 100).accountId = acctB.id ∧
    (transferWithdrawTx dbC3 acctA acctB 100).referenceNumber
      = (transferDepositTx dbC3 acctA acctB 100).referenceNumber ∧
    (transferWithdrawTx dbC3 acctA acctB 100).relatedAccountId = some acctB.id ∧
    (transferDepositTx dbC3 acctA acctB 100).relatedAccountId = some acctA.id ∧
    (transferDepositTx dbC3 acctA acctB 100).relatedTransactionId
      = some (transferWithdrawTx dbC3 acctA acctB 100).id ∧
    (transferWithdrawTx dbC3 acctA acctB 100).relatedTransactionId = none :=
  C3_transfer_legs dbC3 "KB1000000001" "KB1000000002" 100 dbC3run 99900 50100
    acctA acctB (by decide) (by decide) (by rfl)

lemma validate_withdrawal_eq {db : DB} {a : Account} (hwf : WF db)
    (hmem : a ∈ db.accounts) (amount : Int) :
    validate_transaction_amount db.accounts a.id "withdrawal" amount
      = !decide (a.balance - amount < -a.overdraftLimit) := by
  simp [validate_transaction_amount, find?_id_eq_of_nodup db.accounts a hwf hmem]

def acctC4 : Account :=
  { id := 1, accountNumber := "KB4000000001", balance := 100000,
    overdraftLimit := 0, accStatus := "active",
    lastTransactionAt := none, closedAt := none }

def limC4 : LimitEntry :=
  { accountId := 1, limitType := "daily_withdrawal", amount := 100000,
    period := "daily", currentUsage := 90000, resetAt := none }

def dbC4 : DB :=
  { accounts := [acctC4], transactions := [], limits := [limC4], audits := [],
    alerts := [], nextTxId := 1, nextRef := 1, now := 0 }

/-- **C4**: a failing Withdraw fails with exactly one of the four error kinds, each
characterized by its source-order condition: `AccountNotFound` (no active account),
`InvalidAmount` (`amount ≤ 0`), `InsufficientFunds`
(`balance - amount < -overdraft_limit`), or `LimitExceeded` (a non-expired
`daily_withdrawal` entry with `current_usage + amount > cap`, the earlier checks
passing). Failure is a `RAISE EXCEPTION`, i.e. an `Except.error` carrying no
successor state: the balance, the transaction log and the limit usage of the
caller's state are untouched by construction of the rollback semantics. -/
theorem C4_withdraw_errors (db : DB) (num : String) (amount : Int) (e : BankError)
    (hwf : WF db) (h : process_withdrawal db num amount = Except.error e) :
    (e = BankError.accountNotFound ∧ findActive db num = none) ∨
    (∃ a, findActive db num = some a ∧ e = BankError.invalidAmount ∧ amount ≤ 0) ∨
    (∃ a, findActive db num = some a ∧ e = BankError.insufficientFunds ∧
      0 < amount ∧ a.balance - amount < -a.overdraftLimit) ∨
    (∃ a l, findActive db num = some a ∧ e = BankError.limitExceeded ∧
      0 < amount ∧ -a.overdraftLimit ≤ a.balance - amount ∧
      findDailyLimit db a.id = some l ∧ l.amount < l.currentUsage + amount) := by
  unfold process_withdrawal at h
  split at h
  · next hfa =>
    left
    cases h
    exact ⟨rfl, hfa⟩
  · next a hfa =>
    have hmem := (findActive_eq_some hfa).1
    split at h
    · next hamt =>
      right; left
      cases h
      exact ⟨a, hfa, rfl, hamt⟩
    · next hamt =>
      split at h
      · next hbal =>
        right; right; left
        cases h
        exact ⟨a, hfa, rfl, by omega, hbal⟩
      · next hbal =>
        split at h
        · next l hl =>
          split at h
          · next hover =>
            right; right; right
            cases h
            exact ⟨a, l, hfa, rfl, by omega, by omega, hl, by omega⟩
          · next hover =>
            unfold processWithdrawalCommit at h
            rw [validate_withdrawal_eq hwf hmem] at h
            simp [hbal] at h
        · next hl =>
          unfold processWithdrawalCommit at h
          rw [validate_withdrawal_eq hwf hmem] at h
          simp [hbal] at h

/-- Witness for C4 at a concrete `LimitExceeded` failure: balance 1000.00, daily
cap 1000.00 with 900.00 already used, withdrawal of 200.00. -/
theorem C4_withdraw_errors_witness :
    (BankError.limitExceeded = BankError.accountNotFound ∧
      findActive dbC4 "KB4000000001" = none) ∨
    (∃ a, findActive dbC4 "KB4000000001" = some a ∧
      BankError.limitExceeded = BankError.invalidAmount ∧ (20000 : Int) ≤ 0) ∨
    (∃ a, findActive dbC4 "KB4000000001" = some a ∧
      BankError.limitExceeded = BankError.insufficientFunds ∧
      (0 : Int) < 20000 ∧ a.balance - 20000 < -a.overdraftLimit) ∨
    (∃ a l, findActive dbC4 "KB4000000001" = some a ∧
      BankError.limitExceeded = BankError.limitExceeded ∧
      (0 : Int) < 20000 ∧ -a.overdraftLimit ≤ a.balance - 20000 ∧
      findDailyLimit dbC4 a.id = some l ∧ l.amount < l.currentUsage + 20000) :=
  C4_withdraw_errors dbC4 "KB4000000001" 20000 BankError.limitExceeded
    (by decide) (by decide)

/-- A Limit Entry is not expired at time `now`: `reset_at IS NULL OR
reset_at > now`, the condition of the limit check (line 128). -/
def notExpired (now : Int) (l : LimitEntry) : Prop :=
  match l.resetAt with
  | none => True
  | some t => now < t

instance (now : Int) (l : LimitEntry) : Decidable (notExpired now l) := by
  unfold notExpired
  cases l.resetAt <;> infer_instance

/-- Uniqueness of `(account_id, limit_type)` among limit rows, as seeded by
`create_account` (one row per type). -/
def limitsUnique (lims : List LimitEntry) : Prop :=
  lims.Pairwise
    (fun l1 l2 => ¬(l1.accountId = l2.accountId ∧ l1.limitType = l2.limitType))

instance (lims : List LimitEntry) : Decidable (limitsUnique lims) := by
  unfold limitsUnique
  infer_instance

lemma limit_unique {lims : List LimitEntry} (hwl : limitsUnique lims)
    {l1 l2 : LimitEntry} (h1 : l1 ∈ lims) (h2 : l2 ∈ lims)
    (ha : l1.accountId = l2.accountId) (ht : l1.limitType = l2.limitType) :
    l1 = l2 := by
  induction lims with
  | nil => cases h1
  | cons x t ih =>
    rw [limitsUnique, List.pairwise_cons] at hwl
    obtain ⟨hx, hwl'⟩ := hwl
    rcases List.mem_cons.mp h1 with e1 | e1 <;>
      rcases List.mem_cons.mp h2 with e2 | e2
    · rw [e1, e2]
    · exact absurd ⟨e1 ▸ ha, e1 ▸ ht⟩ (hx l2 e2)
    · exact absurd ⟨e2 ▸ ha.symm, e2 ▸ ht.symm⟩ (hx l1 e1)
    · exact ih hwl' e1 e2

def acctC5 : Account :=
  { id := 1, accountNumber := "KB5000000001", balance := 100000,
    overdraftLimit := 0, accStatus := "active",
    lastTransactionAt := none, closedAt := none }

def limC5 : LimitEntry :=
  { accountId := 1, limitType := "daily_withdrawal", amount := 100000,
    period := "daily", currentUsage := 90000, resetAt := some 0 }

def dbC5 : DB :=
  { accounts := [acctC5], transactions := [], limits := [limC5], audits := [],
    alerts := [], nextTxId := 1, nextRef := 1, now := 5 }

/-- **C5** (counterexample): the daily_withdrawal entry is expired
(`reset_at = 0 ≤ now = 5`) with usage 900.00 of cap 1000.00; a withdrawal of 500.00
succeeds because the limit check skips expired entries (line 128), yet the usage
update (lines 156-158) has no `reset_at` filter and pushes the entry to 1400.00,
above its cap — violating the claimed invariant after an operation that increments
usage. -/
theorem C5_counterexample :
    limC5.currentUsage ≤ limC5.amount ∧
    exceptOk (process_withdrawal dbC5 "KB5000000001" 50000) = true ∧
    ((process_withdrawal dbC5 "KB5000000001" 50000).toOption.map
      (fun p => p.1.limits.map LimitEntry.currentUsage)) = some [140000] ∧
    limC5.amount < 140000 := by decide

/-- **C5** (amended): after every successful Withdraw, every **non-expired**
`daily_withdrawal` Limit Entry still satisfies `current_usage ≤ cap` (given the
invariant held before and `(account_id, limit_type)` is unique); an attempt that
would push a non-expired entry above its cap aborts the whole operation. Expired
but not yet reset entries are exempt: the usage update ignores `reset_at` and may
push them past the cap until the periodic reset zeroes them. -/
theorem C5_limit_invariant (db : DB) (num : String) (amount : Int) (db' : DB)
    (r : Int) (hwl : limitsUnique db.limits)
    (hinv : ∀ l ∈ db.limits, l.limitType = "daily_withdrawal" →
      notExpired db.now l → l.currentUsage ≤ l.amount)
    (h : process_withdrawal db num amount = Except.ok (db', r)) :
    ∀ l ∈ db'.limits, l.limitType = "daily_withdrawal" →
      notExpired db'.now l → l.currentUsage ≤ l.amount := by
  obtain ⟨a, hfa, hpos, hbal, hlim, hcommit⟩ := process_withdrawal_ok h
  obtain ⟨hv, hr, hdb⟩ := processWithdrawalCommit_ok hcommit
  subst hdb
  intro l' hl' htype hexp
  simp only at hl' hexp
  unfold incDailyUsage at hl'
  rw [List.mem_map] at hl'
  obtain ⟨l, hlmem, hfl⟩ := hl'
  by_cases hc : l.accountId = a.id ∧ l.limitType = "daily_withdrawal"
  · rw [if_pos hc] at hfl
    subst hfl
    simp only at htype hexp ⊢
    have hexp' : notExpired db.now l := hexp
    have hpred : (l.accountId == a.id && l.limitType == "daily_withdrawal" &&
        (match l.resetAt with
         | none => true
         | some t => decide (db.now < t))) = true := by
      rw [Bool.and_eq_true, Bool.and_eq_true]
      refine ⟨⟨by simp [hc.1], by simp [hc.2]⟩, ?_⟩
      unfold notExpired at hexp'
      cases hres : l.resetAt with
      | none => rfl
      | some t =>
        rw [hres] at hexp'
        simpa using hexp'
    have hsome : (findDailyLimit db a.id).isSome := by
      unfold findDailyLimit
      rw [List.find?_isSome]
      exact ⟨l, hlmem, hpred⟩
    obtain ⟨l0, hl0⟩ := Option.isSome_iff_exists.mp hsome
    have hl0p := List.find?_some hl0
    have hl0mem : l0 ∈ db.limits := List.mem_of_find?_eq_some hl0
    rw [Bool.and_eq_true, Bool.and_eq_true] at hl0p
    have hl0acc : l0.accountId = a.id := by
      have := hl0p.1.1; simpa using this
    have hl0ty : l0.limitType = "daily_withdrawal" := by
      have := hl0p.1.2; simpa using this
    have hll0 : l0 = l :=
      limit_unique hwl hl0mem hlmem (hl0acc.trans hc.1.symm) (hl0ty.trans hc.2.symm)
    have hcap := hlim l0 hl0
    rw [hll0] at hcap
    omega
  · rw [if_neg hc] at hfl
    subst hfl
    exact hinv l hlmem htype hexp

def dbC4run5 : DB :=
  ((process_withdrawal dbC4 "KB4000000001" 5000).toOption.map Prod.fst).getD dbC4

/-- Witness for the amended C5: a concrete successful withdrawal of 50.00 against
cap 1000.00 / usage 900.00 leaves the (non-expired) entry at 950.00 ≤ 1000.00. -/
theorem C5_limit_invariant_witness :
    ({ limC4 with currentUsage := 95000 } : LimitEntry).currentUsage
      ≤ ({ limC4 with currentUsage := 95000 } : LimitEntry).amount :=
  C5_limit_invariant dbC4 "KB4000000001" 5000 dbC4run5 95000 (by decide) (by decide)
    (by rfl) { limC4 with currentUsage := 95000 } (by decide) (by decide) (by decide)

lemma findActive_update_self {db : DB} {num : String} {a : Account}
    (hfa : findActive db num = some a) (b now2 : Int) :
    (updateAccountBalance db.accounts a.id b now2).find? (activePred num)
      = some { a with balance := b, lastTransactionAt := some now2 } := by
  unfold updateAccountBalance
  rw [find?_map_pred]
  · unfold findActive at hfa
    rw [hfa]
    simp
  · intro x
    by_cases hx : x.id = a.id <;> simp [activePred, hx]

def dbC6run : DB :=
  ((process_deposit dbC1 "KB1000000001" 500).toOption.map Prod.fst).getD dbC1

/-- **C6**: a successful Deposit on an active account returns
`balance_before + amount`, appends exactly one completed `deposit` Transaction
recording `balance_before` and `balance_after`, updates the account's balance and
`last_transaction_at`, and leaves a `balance_change` audit entry recording the old
and new balance (the `log_balance_change` trigger fires because the balance
strictly increased). -/
theorem C6_deposit_effects (db : DB) (num : String) (amount : Int) (a : Account)
    (db' : DB) (r : Int) (hfa : findActive db num = some a)
    (h : process_deposit db num amount = Except.ok (db', r)) :
    r = a.balance + amount ∧
    db'.transactions = db.transactions ++ [depositTx db a amount] ∧
    (depositTx db a amount).txType = "deposit" ∧
    (depositTx db a amount).txStatus = "completed" ∧
    (depositTx db a amount).balanceBefore = a.balance ∧
    (depositTx db a amount).balanceAfter = a.balance + amount ∧
    findActive db' num
      = some { a with
               balance := a.balance + amount,
               lastTransactionAt := some db.now } ∧
    db'.audits = db.audits ++
      [{ accountId := a.id, action := "balance_change",
         oldBalance := some a.balance,
         newBalance := some (a.balance + amount) }] := by
  obtain ⟨a', hfa', hpos, hr, hdb⟩ := process_deposit_ok h
  rw [hfa] at hfa'
  cases hfa'
  subst hdb
  refine ⟨hr, rfl, rfl, rfl, rfl, rfl, ?_, ?_⟩
  · exact findActive_update_self hfa (a.balance + amount) db.now
  · simp only
    unfold log_balance_change
    rw [if_pos (by omega : a.balance ≠ a.balance + amount)]

/-- Witness for C6: depositing 5.00 into the 1000.00 account. -/
theorem C6_deposit_effects_witness :
    (100500 : Int) = acctA.balance + 500 ∧
    dbC6run.transactions = dbC1.transactions ++ [depositTx dbC1 acctA 500] ∧
    (depositTx dbC1 acctA 500).txType = "deposit" ∧
    (depositTx dbC1 acctA 500).txStatus = "completed" ∧
    (depositTx dbC1 acctA 500).balanceBefore = acctA.balance ∧
    (depositTx dbC1 acctA 500).balanceAfter = acctA.balance + 500 ∧
    findActive dbC6run "KB1000000001"
      = some { acctA with
               balance := acctA.balance + 500,
               lastTransactionAt := some dbC1.now } ∧
    dbC6run.audits = dbC1.audits ++
      [{ accountId := acctA.id, action := "balance_change",
         oldBalance := some acctA.balance,
         newBalance := some (acctA.balance + 500) }] :=
  C6_deposit_effects dbC1 "KB1000000001" 500 acctA dbC6run 100500
    (by decide) (by rfl)

def acctC7zero : Account :=
  { id := 1, accountNumber := "KB7000000001", balance := 0,
    overdraftLimit := 0, accStatus := "active",
    lastTransactionAt := none, closedAt := none }

def acctC7pos : Account :=
  { id := 2, accountNumber := "KB7000000002", balance := 1,
    overdraftLimit := 0, accStatus := "active",
    lastTransactionAt := none, closedAt := none }

def acctC7neg : Account :=
  { id := 3, accountNumber := "KB7000000003", balance := -1,
    overdraftLimit := 10000, accStatus := "active",
    lastTransactionAt := none, closedAt := none }

def dbC7 : DB :=
  { accounts := [acctC7zero, acctC7pos, acctC7neg], transactions := [],
    limits := [], audits := [], alerts := [], nextTxId := 1, nextRef := 1,
    now := 42 }

/-- **C7**: CloseAccount succeeds (returning `TRUE`, setting status `closed` and
the closing timestamp) iff the account exists with status active and balance
exactly 0; a missing/inactive account yields `AccountNotFound` and any non-zero
balance (for example +0.01 or -0.01, i.e. ±1 cent) yields `NonZeroBalance`; an
error carries no successor state, so no account field is mutated. -/
theorem C7_close_account (db : DB) (num : String) :
    (exceptOk (close_account db num) = true
      ↔ ∃ a, findActive db num = some a ∧ a.balance = 0) ∧
    (findActive db num = none →
      close_account db num = Except.error BankError.accountNotFound) ∧
    (∀ a, findActive db num = some a → a.balance ≠ 0 →
      close_account db num = Except.error BankError.nonZeroBalance) ∧
    (∀ a, findActive db num = some a → a.balance = 0 →
      ∃ db', close_account db num = Except.ok (db', true) ∧
        ∀ x ∈ db'.accounts, x.id = a.id →
          x.accStatus = "closed" ∧ x.closedAt = some db.now) := by
  refine ⟨⟨?_, ?_⟩, ?_, ?_, ?_⟩
  · intro hok
    unfold close_account at hok
    split at hok
    · simp [exceptOk] at hok
    · next a hfa =>
      split at hok
      · simp [exceptOk] at hok
      · next hz =>
        exact ⟨a, hfa, by omega⟩
  · intro ⟨a, hfa, hz⟩
    unfold close_account
    simp only [hfa]
    rw [if_neg (fun hne => hne hz)]
    rfl
  · intro hnone
    unfold close_account
    simp only [hnone]
  · intro a hfa hne
    unfold close_account
    simp only [hfa]
    rw [if_pos hne]
  · intro a hfa hz
    unfold close_account
    simp only [hfa]
    rw [if_neg (fun hne => hne hz)]
    refine ⟨_, rfl, ?_⟩
    intro x hx hxid
    simp only [List.mem_map] at hx
    obtain ⟨y, hy, hfy⟩ := hx
    by_cases hyid : y.id = a.id
    · rw [if_pos hyid] at hfy
      rw [← hfy]
      exact ⟨rfl, rfl⟩
    · rw [if_neg hyid] at hfy
      rw [← hfy] at hxid
      exact absurd hxid hyid

/-- Witness for C7: closing the zero-balance account succeeds; closing the +0.01
and the -0.01 accounts fails with `NonZeroBalance`. -/
theorem C7_close_account_witness :
    exceptOk (close_account dbC7 "KB7000000001") = true ∧
    close_account dbC7 "KB7000000002" = Except.error BankError.nonZeroBalance ∧
    close_account dbC7 "KB7000000003" = Except.error BankError.nonZeroBalance :=
  ⟨(C7_close_account dbC7 "KB7000000001").1.mpr ⟨acctC7zero, by decide, by decide⟩,
   (C7_close_account dbC7 "KB7000000002").2.2.1 acctC7pos (by decide) (by decide),
   (C7_close_account dbC7 "KB7000000003").2.2.1 acctC7neg (by decide) (by decide)⟩

/-- The `WHERE` clause of `reset_daily_limits` as a proposition: `period = 'daily'`
and (`reset_at` is `NULL` or `reset_at ≤ now`). -/
def resetHitsProp (now : Int) (l : LimitEntry) : Prop :=
  l.period = "daily" ∧ (l.resetAt = none ∨ ∃ t, l.resetAt = some t ∧ t ≤ now)

lemma resetHits_iff (now : Int) (l : LimitEntry) :
    resetHits now l = true ↔ resetHitsProp now l := by
  unfold resetHits resetHitsProp
  cases hres : l.resetAt with
  | none => simp
  | some t => simp

lemma reset_map_forall2 (now : Int) (lims : List LimitEntry) :
    List.Forall₂ (fun l l' =>
      (resetHitsProp now l →
        l' = { l with currentUsage := 0, resetAt := some (now + oneDay) }) ∧
      (¬resetHitsProp now l → l' = l))
      lims
      (lims.map fun l =>
        if resetHits now l then
          { l with currentUsage := 0, resetAt := some (now + oneDay) }
        else l) := by
  induction lims with
  | nil => exact List.Forall₂.nil
  | cons x t ih =>
    rw [List.map_cons]
    refine List.Forall₂.cons ⟨?_, ?_⟩ ih
    · intro hp
      rw [if_pos ((resetHits_iff now x).mpr hp)]
    · intro hp
      rw [if_neg (fun hb => hp ((resetHits_iff now x).mp hb))]

def limC8 : LimitEntry :=
  { accountId := 1, limitType := "single_transaction", amount := 200000,
    period := "transaction", currentUsage := 7, resetAt := some 0 }

def dbC8 : DB :=
  { accounts := [], transactions := [], limits := [limC8], audits := [],
    alerts := [], nextTxId := 1, nextRef := 1, now := 5 }

/-- **C8** (counterexample): a `single_transaction` entry (period `transaction`)
with `reset_at = 0 ≤ now = 5` — per the claim it should be reset "regardless of the
entry's limit type or period" and counted — is left completely unchanged by
`reset_daily_limits`, which filters on `period = 'daily'`, and the returned count
is 0, not 1. -/
theorem C8_counterexample :
    limC8.resetAt = some 0 ∧ (0 : Int) ≤ dbC8.now ∧ limC8.period ≠ "daily" ∧
    limC8.currentUsage ≠ 0 ∧
    (reset_daily_limits dbC8).1.limits = [limC8] ∧
    (reset_daily_limits dbC8).2 = 0 := by decide

/-- **C8** (amended): `reset_daily_limits`, invoked at time `now`, zeroes
`current_usage` and advances `reset_at` to `now + 1 day` for exactly the entries
with `period = 'daily'` whose `reset_at` is `NULL` or `≤ now` — entries of any
other period are never touched, whatever their `reset_at` — and returns the count
of entries so reset; daily entries with `reset_at` in the future, and all
non-daily entries, are left unchanged. -/
theorem C8_reset_daily (db : DB) :
    (reset_daily_limits db).2 = (db.limits.filter (resetHits db.now)).length ∧
    List.Forall₂ (fun l l' =>
      (resetHitsProp db.now l →
        l' = { l with currentUsage := 0, resetAt := some (db.now + oneDay) }) ∧
      (¬resetHitsProp db.now l → l' = l))
      db.limits (reset_daily_limits db).1.limits :=
  ⟨rfl, reset_map_forall2 db.now db.limits⟩

def dbC8b : DB :=
  { accounts := [], transactions := [],
    limits := [limC8,
      { accountId := 1, limitType := "daily_withdrawal", amount := 100000,
        period := "daily", currentUsage := 40000, resetAt := some 3 }],
    audits := [], alerts := [], nextTxId := 1, nextRef := 1, now := 5 }

/-- Witness for the amended C8: one non-daily entry (untouched) and one expired
daily entry (reset and counted). -/
theorem C8_reset_daily_witness :
    (reset_daily_limits dbC8b).2 = (dbC8b.limits.filter (resetHits dbC8b.now)).length
      ∧ List.Forall₂ (fun l l' =>
        (resetHitsProp dbC8b.now l →
          l' = { l with currentUsage := 0, resetAt := some (dbC8b.now + oneDay) }) ∧
        (¬resetHitsProp dbC8b.now l → l' = l))
        dbC8b.limits (reset_daily_limits dbC8b).1.limits :=
  C8_reset_daily dbC8b

/-- **C9**: the source acquires the two `FOR UPDATE` row locks in caller order —
the `from` account first, then the `to` account — not in a canonical order: for
the same pair of accounts passed in opposite orders the first lock taken differs,
so two concurrent opposite-direction transfers can each take the other's first
lock and deadlock, contradicting the claimed fixed global ordering. -/
theorem C9_lock_order :
    transferLockOrder "KB1000000001" "KB1000000002"
      = ["KB1000000001", "KB1000000002"] ∧
    transferLockOrder "KB1000000002" "KB1000000001"
      = ["KB1000000002", "KB1000000001"] ∧
    (transferLockOrder "KB1000000001" "KB1000000002").head?
      ≠ (transferLockOrder "KB1000000002" "KB1000000001").head? := by decide

def dbC10d : DB :=
  ((process_deposit dbC1 "KB1000000001" 2000000).toOption.map Prod.fst).getD dbC1

def dbC10w : DB :=
  ((process_withdrawal dbC1 "KB1000000002" 45000).toOption.map Prod.fst).getD dbC1

/-- **C10**: a successful Deposit emits a `large_transaction` alert iff the amount
is strictly greater than 10000 dollars (1000000 cents; exactly 10000 emits none),
and a successful Withdraw emits a `low_balance` alert iff the resulting balance is
strictly below 100 dollars (10000 cents; exactly 100 emits none). -/
theorem C10_alert_thresholds (db1 : DB) (num1 : String) (amt1 : Int) (a1 : Account)
    (db1' : DB) (r1 : Int) (db2 : DB) (num2 : String) (amt2 : Int) (a2 : Account)
    (db2' : DB) (r2 : Int)
    (hfa1 : findActive db1 num1 = some a1)
    (hd : process_deposit db1 num1 amt1 = Except.ok (db1', r1))
    (hfa2 : findActive db2 num2 = some a2)
    (hw : process_withdrawal db2 num2 amt2 = Except.ok (db2', r2)) :
    ((1000000 : Int) < amt1 → db1'.alerts = db1.alerts ++ [largeAlert a1]) ∧
    (amt1 ≤ 1000000 → db1'.alerts = db1.alerts) ∧
    (r2 < 10000 → db2'.alerts = db2.alerts ++ [lowBalanceAlert a2]) ∧
    ((10000 : Int) ≤ r2 → db2'.alerts = db2.alerts) := by
  obtain ⟨a1', hfa1', hpos1, hr1, hdb1⟩ := process_deposit_ok hd
  rw [hfa1] at hfa1'
  cases hfa1'
  subst hdb1
  obtain ⟨a2', hfa2', hpos2, hbal2, hlim2, hcommit2⟩ := process_withdrawal_ok hw
  rw [hfa2] at hfa2'
  cases hfa2'
  obtain ⟨hv2, hr2, hdb2⟩ := processWithdrawalCommit_ok hcommit2
  subst hdb2
  subst hr2
  refine ⟨?_, ?_, ?_, ?_⟩
  · intro hgt
    simp only
    rw [if_pos (by omega : amt1 > 1000000)]
  · intro hle
    simp only
    rw [if_neg (by omega : ¬amt1 > 1000000), List.append_nil]
  · intro hlt
    simp only
    rw [if_pos hlt]
  · intro hge
    simp only
    rw [if_neg (by omega : ¬a2.balance - amt2 < 10000), List.append_nil]

/-- Witness for C10: a 20000.00 deposit emits the `large_transaction` alert and a
withdrawal leaving 50.00 emits the `low_balance` alert. -/
theorem C10_alert_thresholds_witness :
    dbC10d.alerts = dbC1.alerts ++ [largeAlert acctA] ∧
    dbC10w.alerts = dbC1.alerts ++ [lowBalanceAlert acctB] :=
  ⟨(C10_alert_thresholds dbC1 "KB1000000001" 2000000 acctA dbC10d 2100000
      dbC1 "KB1000000002" 45000 acctB dbC10w 5000
      (by decide) (by rfl) (by decide) (by rfl)).1 (by decide),
   (C10_alert_thresholds dbC1 "KB1000000001" 2000000 acctA dbC10d 2100000
      dbC1 "KB1000000002" 45000 acctB dbC10w 5000
      (by decide) (by rfl) (by decide) (by rfl)).2.2.1 (by decide)⟩
